import Mathlib

/-
Verification of the hotel-management backend's query layer and auth layer.

The Python source (src/DB/db_common_query.py, src/DB/db_connection.py,
src/users/utils.py, src/users/service.py) is embedded shallowly:

* Python values flowing through the data layer are modelled by `Val`
  (text, integer, boolean, null), rows by ordered association lists.
* The database driver (psycopg2) is modelled by a `Store` oracle giving the
  outcome of connection acquisition, statement execution, the fetched rows
  and the row count; `get_db_connection` is configured with
  cursor_factory=RealDictCursor, so every fetched row is a mapping from
  column name to value (not a positional tuple), which `Row` reflects.
* Python exceptions are modelled by `PyErr` and `Except`; `try/except`
  blocks become `match` on the `Except` result, and the `finally: conn.close()`
  resource bookkeeping is recorded in a `ConnTrace`.
-/

namespace Hotel

/-- A Python value as used by the data layer: text, integer, boolean or None. -/
inductive Val where
  | s (x : String)
  | i (n : Int)
  | b (x : Bool)
  | null
deriving DecidableEq, Repr

/-- A row as returned by a RealDictCursor: an ordered mapping column → value. -/
abbrev Row := List (String × Val)

/-- `str(value)` for the `Val` fragment (used in error message interpolation). -/
def Val.pyStr : Val → String
  | .s x => x
  | .i n => toString n
  | .b true => "True"
  | .b false => "False"
  | .null => "None"

/-- Python exceptions raised by the embedded code.  `keyErr` carries `str(e)`
of the `KeyError` (CPython prints the missing key), `connErr` models the
psycopg2 connection error re-raised by `get_db_connection`. -/
inductive PyErr where
  | valueErr (msg : String)
  | dbErr (msg : String)
  | keyErr (msg : String)
  | typeErr (msg : String)
  | connErr (msg : String)
deriving DecidableEq, Repr

/-- `str(e)` of an exception (Python prints the message of each of these). -/
def PyErr.pyStr : PyErr → String
  | .valueErr m => m
  | .dbErr m => m
  | .keyErr m => m
  | .typeErr m => m
  | .connErr m => m

instance {ε α : Type} [DecidableEq ε] [DecidableEq α] : DecidableEq (Except ε α) :=
  fun a b =>
    match a, b with
    | .ok x, .ok y =>
        if h : x = y then .isTrue (by rw [h]) else .isFalse (by intro hc; cases hc; exact h rfl)
    | .error x, .error y =>
        if h : x = y then .isTrue (by rw [h]) else .isFalse (by intro hc; cases hc; exact h rfl)
    | .ok _, .error _ => .isFalse (by intro hc; cases hc)
    | .error _, .ok _ => .isFalse (by intro hc; cases hc)

/-- Python whitespace class `\s` over ASCII: space, tab, newline, carriage
return, vertical tab, form feed. -/
def isPySpace (c : Char) : Bool :=
  c = ' ' || c.toNat = 9 || c.toNat = 10 || c.toNat = 11 || c.toNat = 12 || c.toNat = 13

/-- Python `str.strip()`: remove leading and trailing whitespace. -/
def pyStrip (s : String) : String :=
  String.mk (((s.data.dropWhile isPySpace).reverse.dropWhile isPySpace).reverse)

/-- Python `str.lower()` (ASCII fragment). -/
def pyLower (s : String) : String := String.mk (s.data.map Char.toLower)

/-- List prefix test for `str.startswith`. -/
def leadsChars : List Char → List Char → Bool
  | [], _ => true
  | _ :: _, [] => false
  | a :: as, b :: bs => a = b && leadsChars as bs

/-- Python `s.startswith(pre)`. -/
def pyStartsWith (s pre : String) : Bool := leadsChars pre.data s.data

/-- Helper for `pySplitComma`. -/
def splitCommaAux : List Char → List Char → List String
  | [], acc => [String.mk acc.reverse]
  | c :: cs, acc =>
      if c = ',' then String.mk acc.reverse :: splitCommaAux cs []
      else splitCommaAux cs (c :: acc)

/-- Python `s.split(",")`: the empty string yields one empty piece. -/
def pySplitComma (s : String) : List String := splitCommaAux s.data []

/- Identifier validation.  The source validates with
`re.match(r"^[a-zA-Z_][a-zA-Z0-9_]*$", s)`.  Python's `$` also matches just
before a single newline that terminates the string, which `pyIdentMatch`
reproduces. -/

/-- First character class `[a-zA-Z_]` of the identifier pattern. -/
def isIdentStart (c : Char) : Bool := c.isAlpha || c = '_'

/-- Continuation character class `[a-zA-Z0-9_]`. -/
def isIdentChar (c : Char) : Bool := c.isAlphanum || c = '_'

/-- Fully anchored match of `[a-zA-Z_][a-zA-Z0-9_]*` against the whole string. -/
def matchesIdentCore (s : String) : Bool :=
  match s.data with
  | [] => false
  | c :: cs => isIdentStart c && cs.all isIdentChar

/-- Python `re.match(r"^[a-zA-Z_][a-zA-Z0-9_]*$", s)` as a Bool: the core
pattern against the whole string, or against everything before one trailing
newline (Python `$` semantics). -/
def pyIdentMatch (s : String) : Bool :=
  matchesIdentCore s ||
    (s.data.getLast? = some (Char.ofNat 10) && matchesIdentCore (String.mk s.data.dropLast))

/-- Character class `[\w,\s*]` of `delete_by_id`'s looser returning pattern. -/
def isLooseChar (c : Char) : Bool :=
  c.isAlphanum || c = '_' || c = ',' || c = '*' ||
    c = ' ' || c.toNat = 9 || c.toNat = 10 || c.toNat = 11 || c.toNat = 12 || c.toNat = 13

/-- Python `re.match(r^[\w,\s*]+$, s)` as a Bool (the `$` newline tolerance is
absorbed because the newline is itself in the class). -/
def pyLooseMatch (s : String) : Bool :=
  !s.data.isEmpty && s.data.all isLooseChar

/-- The validation applied to `returning` by `insert_row` and `update_by_id`:
split on commas, strip whitespace, every piece must match the identifier
pattern. -/
def validReturningList (returning : String) : Bool :=
  (pySplitComma returning).all (fun col => pyIdentMatch (pyStrip col))

/-- Error message raised by `_validate_table_name`. -/
def tableErrMsg (table : String) : String :=
  "Invalid table name: " ++ table ++
    ". Must start with a letter or underscore, and contain only letters, numbers, and underscores."

/- The execution primitive `execute_query`. -/

/-- The Python value returned by `execute_query`: a list of rows, the cursor
row count, or `None`. -/
inductive ExecResult where
  | rows (rs : List Row)
  | count (n : Int)
  | pyNone
deriving DecidableEq, Repr

/-- Python truthiness of an `ExecResult`: lists are truthy when non-empty,
ints when non-zero, `None` never. -/
def ExecResult.truthy : ExecResult → Bool
  | .rows rs => !rs.isEmpty
  | .count n => n != 0
  | .pyNone => false

/-- Python `result[0]`: indexing a list yields its head; subscripting an int
or `None` raises `TypeError`. -/
def ExecResult.sub0 : ExecResult → Except PyErr Row
  | .rows (r :: _) => .ok r
  | .rows [] => .error (.typeErr "list index out of range")
  | .count _ => .error (.typeErr "int object is not subscriptable")
  | .pyNone => .error (.typeErr "NoneType object is not subscriptable")

/-- The idiom `result[0] if result else None` used throughout the query layer. -/
def firstOrNone (r : ExecResult) : Except PyErr (Option Row) :=
  if r.truthy then r.sub0.map Option.some else .ok Option.none

/-- Behaviour oracle for one `get_db_connection`/cursor interaction: whether
connecting succeeds, whether `cur.execute` succeeds (and with which error
message when not), what `fetchall` returns, and `cur.rowcount`. -/
structure Store where
  connOk : Bool
  execOk : Bool
  execErrMsg : String
  resultRows : List Row
  rowcount : Int
deriving DecidableEq, Repr

/-- Resource bookkeeping of one `execute_query` call: whether a connection was
acquired, which SQL text and parameters were issued (if any), and whether the
connection was committed, rolled back, and closed. -/
structure ConnTrace where
  acquired : Bool
  executed : Option (String × List Val)
  committed : Bool
  rolledBack : Bool
  closed : Bool
deriving DecidableEq, Repr

/-- Trace of a call that never reached the store. -/
def noTrace : ConnTrace := ⟨false, Option.none, false, false, false⟩

/-- Outcome of `execute_query`: its Python return value or exception, plus the
connection trace. -/
structure ExecOutcome where
  result : Except PyErr ExecResult
  trace : ConnTrace
deriving Repr

/-- Embedding of `execute_query(query, params, fetch, commit)` from
db_common_query.py.  Notes kept faithful to the source:
`get_db_connection` re-raises the psycopg2 error on failure (it never returns
a falsy value, so the `if not conn` branch of the source is unreachable);
on `cur.execute` failure the except block rolls back and wraps the cause in
`DatabaseError("Query execution failed: ...")`; the `finally` block closes the
connection on every path after acquisition; when fetching, rows are returned
only when the SQL text starts (case-insensitively, after stripping) with
"select", otherwise the function returns `None`. -/
def execute_query (st : Store) (query : String) (params : List Val)
    (fetch : Bool) (commit : Bool) : ExecOutcome :=
  if query = "" then
    ⟨.error (.valueErr "Query cannot be empty"), noTrace⟩
  else if !st.connOk then
    ⟨.error (.connErr "could not connect to server"), noTrace⟩
  else if !st.execOk then
    ⟨.error (.dbErr ("Query execution failed: " ++ st.execErrMsg)),
      ⟨true, Option.some (query, params), false, true, true⟩⟩
  else
    let res : ExecResult :=
      if fetch then
        if pyStartsWith (pyLower (pyStrip query)) "select" then .rows st.resultRows
        else .pyNone
      else .count st.rowcount
    ⟨.ok res, ⟨true, Option.some (query, params), commit, false, true⟩⟩

/-- Just the Python return value / exception of `execute_query`. -/
def execQ (st : Store) (query : String) (params : List Val)
    (fetch : Bool) (commit : Bool) : Except PyErr ExecResult :=
  (execute_query st query params fetch commit).result

/- The seven public query-layer operations. -/

/-- SQL text built by `get_by_id`. -/
def get_by_id_query (table : String) : String :=
  "SELECT * FROM " ++ table ++ " WHERE id = %s"

/-- Embedding of `get_by_id(table, row_id)`. -/
def get_by_id (st : Store) (table : String) (row_id : Val) :
    Except PyErr (Option Row) :=
  if !pyIdentMatch table then .error (.valueErr (tableErrMsg table))
  else
    match execQ st (get_by_id_query table) [row_id] true true with
    | .error e => .error e
    | .ok res => firstOrNone res

/-- SQL text built by `get_by_column`. -/
def get_by_column_query (table column : String) : String :=
  "SELECT * FROM " ++ table ++ " WHERE " ++ column ++ " = %s"

/-- Embedding of `get_by_column(table, column, value)`. -/
def get_by_column (st : Store) (table column : String) (value : Val) :
    Except PyErr (Option Row) :=
  if !pyIdentMatch table then .error (.valueErr (tableErrMsg table))
  else if !pyIdentMatch column then .error (.valueErr "Invalid column name")
  else
    match execQ st (get_by_column_query table column) [value] true true with
    | .error e => .error e
    | .ok res => firstOrNone res

/-- Python truthiness of an optional string (`if returning:` and friends). -/
def optTruthy : Option String → Bool
  | Option.some s => s ≠ ""
  | Option.none => false

/-- SQL text built by `get_all`: base select, then a WHERE clause whose
column names are the filter keys interpolated directly, then ORDER BY,
LIMIT and OFFSET. -/
def get_all_query (table : String) (filters : List (String × Val))
    (order_by : Option String) (limit offset : Option Int) : String :=
  let base := "SELECT * FROM " ++ table
  let withWhere :=
    if filters.isEmpty then base
    else base ++ " WHERE " ++
      String.intercalate " AND " (filters.map (fun kv => kv.1 ++ " = %s"))
  let withOrder :=
    match order_by with
    | Option.some ob => if ob ≠ "" then withWhere ++ " ORDER BY " ++ ob else withWhere
    | Option.none => withWhere
  match limit with
  | Option.some _ =>
      match offset with
      | Option.some _ => withOrder ++ " LIMIT %s OFFSET %s"
      | Option.none => withOrder ++ " LIMIT %s"
  | Option.none => withOrder

/-- Parameter list passed by `get_all`: filter values, then limit, then
offset (offset only when limit is present). -/
def get_all_params (filters : List (String × Val)) (limit offset : Option Int) :
    List Val :=
  filters.map Prod.snd ++
    (match limit with
     | Option.some l =>
         Val.i l :: (match offset with
                     | Option.some o => [Val.i o]
                     | Option.none => [])
     | Option.none => [])

/-- Embedding of `get_all(table, filters, order_by, limit, offset)`.  The
table name and `order_by` are validated; the filter keys are interpolated
into the SQL text without any validation. -/
def get_all (st : Store) (table : String) (filters : List (String × Val))
    (order_by : Option String) (limit offset : Option Int) :
    Except PyErr (List Row) :=
  if !pyIdentMatch table then .error (.valueErr (tableErrMsg table))
  else if optTruthy order_by && !pyIdentMatch (order_by.getD "") then
    .error (.valueErr "Invalid order_by column")
  else
    match execQ st (get_all_query table filters order_by limit offset)
        (get_all_params filters limit offset) true true with
    | .error e => .error e
    | .ok (.rows rs) => .ok rs
    | .ok _ => .ok []

/-- SQL text built by `insert_row`: column names are the data keys
interpolated directly; a RETURNING clause is appended when `returning` is
truthy. -/
def insert_row_query (table : String) (data : List (String × Val))
    (returning : Option String) : String :=
  let columns := String.intercalate ", " (data.map Prod.fst)
  let placeholders := String.intercalate ", " (data.map (fun _ => "%s"))
  let base := "INSERT INTO " ++ table ++ " (" ++ columns ++ ") VALUES (" ++ placeholders ++ ")"
  if optTruthy returning then base ++ " RETURNING " ++ returning.getD "" else base

/-- Embedding of `insert_row(table, data, returning)` including its
`try/except` wrapper, which converts any exception of the execute-and-index
block into `DatabaseError("Failed to insert into ...")`. -/
def insert_row (st : Store) (table : String) (data : List (String × Val))
    (returning : Option String) : Except PyErr (Option Row) :=
  if !pyIdentMatch table then .error (.valueErr (tableErrMsg table))
  else if data.isEmpty then .error (.valueErr "Data dictionary cannot be empty")
  else if optTruthy returning && !validReturningList (returning.getD "") then
    .error (.valueErr "Invalid returning column specification")
  else
    let attempt : Except PyErr (Option Row) :=
      match execQ st (insert_row_query table data returning) (data.map Prod.snd)
          (optTruthy returning) true with
      | .error e => .error e
      | .ok res => firstOrNone res
    match attempt with
    | .ok v => .ok v
    | .error e => .error (.dbErr ("Failed to insert into " ++ table ++ ": " ++ e.pyStr))

/-- SQL text built by `upsert_row`: data keys, the conflict column, the
update-column list and the returning list are all interpolated directly. -/
def upsert_row_query (table : String) (data : List (String × Val))
    (conflict_column : String) (update_columns : List String)
    (returning : Option String) : String :=
  let columns := String.intercalate ", " (data.map Prod.fst)
  let placeholders := String.intercalate ", " (data.map (fun _ => "%s"))
  let updates := String.intercalate ", "
    (update_columns.map (fun col => col ++ " = EXCLUDED." ++ col))
  let base := "INSERT INTO " ++ table ++ " (" ++ columns ++ ") VALUES (" ++
    placeholders ++ ") ON CONFLICT (" ++ conflict_column ++ ") DO UPDATE SET " ++
    updates ++ " "
  if optTruthy returning then base ++ " RETURNING " ++ returning.getD "" else base

/-- Embedding of `upsert_row(table, data, conflict_column, update_columns,
returning)`.  Only the table name is validated and `data` checked non-empty;
no other argument is validated. -/
def upsert_row (st : Store) (table : String) (data : List (String × Val))
    (conflict_column : String) (update_columns : List String)
    (returning : Option String) : Except PyErr (Option Row) :=
  if !pyIdentMatch table then .error (.valueErr (tableErrMsg table))
  else if data.isEmpty then .error (.valueErr "Data dictionary cannot be empty")
  else
    let attempt : Except PyErr (Option Row) :=
      match execQ st (upsert_row_query table data conflict_column update_columns returning)
          (data.map Prod.snd) (optTruthy returning) true with
      | .error e => .error e
      | .ok res => firstOrNone res
    match attempt with
    | .ok v => .ok v
    | .error e => .error (.dbErr ("Upsert failed for " ++ table ++ ": " ++ e.pyStr))

/-- SQL text built by `update_by_id`: data keys interpolated into the SET
clause. -/
def update_by_id_query (table : String) (data : List (String × Val))
    (returning : Option String) : String :=
  let set_clause := String.intercalate ", " (data.map (fun kv => kv.1 ++ " = %s"))
  let base := "UPDATE " ++ table ++ " SET " ++ set_clause ++ " WHERE id = %s"
  if optTruthy returning then base ++ " RETURNING " ++ returning.getD "" else base

/-- Embedding of `update_by_id(table, row_id, data, returning)`.  With a
truthy returning list the first returned row (or `None`) is produced; without
one the integer result is wrapped as a dict with key rows_updated. -/
def update_by_id (st : Store) (table : String) (row_id : Val)
    (data : List (String × Val)) (returning : Option String) :
    Except PyErr (Option Row) :=
  if !pyIdentMatch table then .error (.valueErr (tableErrMsg table))
  else if data.isEmpty then .error (.valueErr "Update data cannot be empty")
  else if optTruthy returning && !validReturningList (returning.getD "") then
    .error (.valueErr "Invalid returning column specification")
  else
    let attempt : Except PyErr (Option Row) :=
      match execQ st (update_by_id_query table data returning)
          (data.map Prod.snd ++ [row_id]) (optTruthy returning) true with
      | .error e => .error e
      | .ok res =>
          if optTruthy returning then firstOrNone res
          else
            -- fetch=False, so `res` is always the row count here
            match res with
            | .count n => .ok (Option.some [("rows_updated", Val.i n)])
            | .rows _ => .ok (Option.some [("rows_updated", Val.null)])
            | .pyNone => .ok (Option.some [("rows_updated", Val.null)])
    match attempt with
    | .ok v => .ok v
    | .error e =>
        .error (.dbErr ("Update failed for " ++ table ++ " ID " ++ row_id.pyStr ++ ": " ++ e.pyStr))

/-- Result of `delete_by_id`: a row count when no returning clause was
requested, otherwise the deleted row or `None`. -/
inductive DelResult where
  | cnt (n : Int)
  | row (r : Option Row)
deriving DecidableEq, Repr

/-- SQL text built by `delete_by_id`. -/
def delete_by_id_query (table : String) (returning : Option String) : String :=
  let base := "DELETE FROM " ++ table ++ " WHERE id = %s"
  if optTruthy returning then base ++ " RETURNING " ++ returning.getD "" else base

/-- Embedding of `delete_by_id(table, row_id, returning)`; `returning` is
checked against the looser pattern `[\w,\s*]+`. -/
def delete_by_id (st : Store) (table : String) (row_id : Val)
    (returning : Option String) : Except PyErr DelResult :=
  if !pyIdentMatch table then .error (.valueErr (tableErrMsg table))
  else if optTruthy returning && !pyLooseMatch (returning.getD "") then
    .error (.valueErr "Invalid returning columns specification")
  else
    let attempt : Except PyErr DelResult :=
      match execQ st (delete_by_id_query table returning) [row_id]
          (optTruthy returning) true with
      | .error e => .error e
      | .ok res =>
          if optTruthy returning then
            match firstOrNone res with
            | .error e => .error e
            | .ok r => .ok (.row r)
          else
            -- fetch=False, so `res` is always the row count here
            match res with
            | .count n => .ok (.cnt n)
            | .rows _ => .ok (.cnt 0)
            | .pyNone => .ok (.cnt 0)
    match attempt with
    | .ok v => .ok v
    | .error e =>
        .error (.dbErr ("Delete failed for " ++ table ++ " ID " ++ row_id.pyStr ++ ": " ++ e.pyStr))

/- Auth layer (src/users/utils.py). -/

/-- Process environment, as consulted by `os.getenv`. -/
abbrev Env := List (String × String)

/-- `os.getenv(key)`: first binding of the key, if any. -/
def getenv (env : Env) (key : String) : Option String := env.lookup key

/-- `os.getenv(key, default)`. -/
def getenvD (env : Env) (key dflt : String) : String := (getenv env key).getD dflt

/-- The hardcoded fallback value of `SECRET_KEY` in utils.py. -/
def SECRET_KEY_DEFAULT : String :=
  "d4f7e3a9b0124c789e0f15b4c6a7d9e8f1c2b3d4e5f60718293a4b5c6d7e8f90"

/-- Module-level `SECRET_KEY = os.getenv("SECRET_KEY", <default>)`. -/
def SECRET_KEY (env : Env) : String := getenvD env "SECRET_KEY" SECRET_KEY_DEFAULT

/-- Module-level `ALGORITHM = os.getenv("ALGORITHM", "HS256")`. -/
def ALGORITHM (env : Env) : String := getenvD env "ALGORITHM" "HS256"

/-- Module import of utils.py with respect to the signing key: computes
`SECRET_KEY` and raises `ValueError` when it is falsy (the empty string),
otherwise yields the key. -/
def load_secret_key (env : Env) : Except PyErr String :=
  let sk := SECRET_KEY env
  if sk = "" then .error (.valueErr "SECRET_KEY not found in the .env file")
  else .ok sk

/-- JWT claims produced by `create_jwt_token`: user_id, role and the expiry
instant (epoch seconds). -/
structure JwtPayload where
  user_id : Int
  role : String
  exp : Nat
deriving DecidableEq, Repr

/-- A signed token, symbolically: the claims together with the key and
algorithm it was signed with.  Signature verification against key `k`
succeeds exactly when the token's `key` equals `k` (an ideal unforgeable
MAC); a tampered payload or a token re-signed under another key is one whose
`key` differs from the verifier's. -/
structure Jwt where
  payload : JwtPayload
  key : String
  alg : String
deriving DecidableEq, Repr

/-- Embedding of `create_jwt_token(user_id, role)`: claims
`user_id`, `role`, `exp = now + 1 hour`, signed with the module's
`SECRET_KEY` using the module's `ALGORITHM`. -/
def create_jwt_token (env : Env) (now : Nat) (user_id : Int) (role : String) : Jwt :=
  ⟨⟨user_id, role, now + 3600⟩, SECRET_KEY env, ALGORITHM env⟩

/-- The two exceptions raised by `decode_jwt_token`: Token has expired /
Invalid token. -/
inductive TokenErr where
  | expired
  | invalid
deriving DecidableEq, Repr

/-- Embedding of `decode_jwt_token(token)`: `jose.jwt.decode(token,
SECRET_KEY, algorithms=["HS256"])` rejects as invalid any token whose
algorithm is not HS256 or whose signature does not verify under the module
key; a signature-valid token is then rejected as expired when the current
time is past its `exp` claim; otherwise the full payload is returned. -/
def decode_jwt_token (env : Env) (now : Nat) (t : Jwt) : Except TokenErr JwtPayload :=
  if t.alg ≠ "HS256" || t.key ≠ SECRET_KEY env then .error .invalid
  else if t.payload.exp < now then .error .expired
  else .ok t.payload

/- Password hashing (src/users/utils.py).

Modelled from the spec: the bcrypt primitives `bcrypt.hashpw`,
`bcrypt.gensalt` and `bcrypt.checkpw` are library code outside this
repository.  Following the spec - "computes a salted one-way hash with a
per-call random salt baked into the output encoding" and "recomputes and
compares using the salt embedded in the hash" - the hash output is modelled
as the pair of the salt and an ideal (injective) digest of password and
salt; `gensalt`'s randomness is modelled by passing the fresh salt
explicitly. -/

/-- Modelled from the spec: a bcrypt hash output, carrying the salt baked
into the encoding together with the digest. -/
structure BcryptHash where
  salt : Nat
  digest : String × Nat
deriving DecidableEq, Repr

/-- Modelled from the spec: the ideal one-way digest of a password under a
salt (injective in the pair, standing in for the bcrypt key derivation). -/
def bcryptDigest (password : String) (salt : Nat) : String × Nat :=
  (password, salt)

/-- Embedding of `hash_password(password)`, the fresh salt produced by
`bcrypt.gensalt()` made explicit. -/
def hash_password (password : String) (salt : Nat) : BcryptHash :=
  ⟨salt, bcryptDigest password salt⟩

/-- Embedding of `verify_password(plain, hashed)`: recompute the digest with
the salt embedded in the hash and compare. -/
def verify_password (plain : String) (hashed : BcryptHash) : Bool :=
  bcryptDigest plain hashed.salt = hashed.digest

/- Service layer (src/users/service.py). -/

/-- Subscripting a RealDictCursor row (`result[k]`): the row is keyed by the
column names (strings), so a string key is looked up (KeyError when absent,
CPython printing the repr of the key) and an integer key always raises
KeyError whose `str` is the integer itself. -/
def pyRowGet (r : Row) (k : Val) : Except PyErr Val :=
  match k with
  | .s key =>
      match r.lookup key with
      | Option.some v => .ok v
      | Option.none => .error (.keyErr key)
  | .i n => .error (.keyErr (toString n))
  | v => .error (.keyErr v.pyStr)

/-- The error response dict built by the service functions. -/
def svcErr (msg : String) : Row :=
  [("status", Val.s "error"), ("message", Val.s msg)]

/-- The registration payload after the `data[...]`/`data.get` accesses:
username, email, password, and the optional user_role field. -/
structure RegisterData where
  username : String
  email : String
  password : String
  user_role : Option String
deriving DecidableEq, Repr

/-- Store oracle for one `register_user` call: whether connecting succeeds,
whether the duplicate-check SELECT finds an existing user, and the id the
INSERT's RETURNING clause reports. -/
structure RegStore where
  connOk : Bool
  existingUser : Bool
  newId : Int
deriving DecidableEq, Repr

/-- What happened on the connection during `register_user`. -/
structure RegTrace where
  insertExecuted : Bool
  insertedRole : Option String
  committed : Bool
  rolledBack : Bool
  closed : Bool
deriving DecidableEq, Repr

/-- Embedding of `register_user(data)`.  Faithful points: `user_role`
defaults to "guest" via `data.get`; `get_db_connection` re-raises its error
on failure (the `if not conn` branch is unreachable), modelled as the
`.error` case; the INSERT's RETURNING clause lists only `id, username`, so
with a RealDictCursor `cur.fetchone()` is the mapping
`[("id", newId), ("username", username)]`; `conn.commit()` runs before the
response dict is built, and building it subscripts that mapping with the
integer keys 0, 1, 2, raising KeyError, which the except block answers with
a (post-commit, hence ineffective) rollback and an error response whose
message is `str(e)`. -/
def register_user (st : RegStore) (salt : Nat) (data : RegisterData) :
    Except PyErr (Row × RegTrace) :=
  let user_role := data.user_role.getD "guest"
  if data.username = "" || data.email = "" || data.password = "" then
    .ok (svcErr "Username, email, and password are required",
         ⟨false, Option.none, false, false, false⟩)
  else if !st.connOk then
    .error (.connErr "could not connect to server")
  else
    let _hashed_pass := hash_password data.password salt
    if st.existingUser then
      -- ValueError raised, caught: rollback, error response, close
      .ok (svcErr "Username or email already exists",
           ⟨false, Option.none, false, true, true⟩)
    else
      let result : Row := [("id", Val.i st.newId), ("username", Val.s data.username)]
      let built : Except PyErr Row := do
        let v0 ← pyRowGet result (Val.i 0)
        let v1 ← pyRowGet result (Val.i 1)
        let v2 ← pyRowGet result (Val.i 2)
        pure [("id", v0), ("username", v1), ("user_role", v2),
              ("profile_completed", Val.b false), ("status", Val.s "success")]
      match built with
      | .ok row => .ok (row, ⟨true, Option.some user_role, true, false, true⟩)
      | .error e =>
          .ok (svcErr e.pyStr, ⟨true, Option.some user_role, true, true, true⟩)

/-- The relational state touched by `complete_profile`: the users table
(id ↦ (user_role, profile_completed)) and the two profile tables keyed by
user_id. -/
structure DbState where
  users : List (Int × String × Bool)
  guest_profiles : List (Int × Row)
  staff_profiles : List (Int × Row)
deriving DecidableEq, Repr

/-- Insert-or-replace keyed by the first component (the semantics of
`INSERT ... ON CONFLICT (user_id) DO UPDATE SET` on a table keyed by
user_id). -/
def upsertAssoc {β : Type} (k : Int) (v : β) : List (Int × β) → List (Int × β)
  | [] => [(k, v)]
  | (k2, w) :: rest =>
      if k2 = k then (k2, v) :: rest else (k2, w) :: upsertAssoc k v rest

/-- Update the value at a key (the semantics of `UPDATE ... WHERE id = k`
on a table keyed by id). -/
def updAssoc {β : Type} (k : Int) (f : β → β) : List (Int × β) → List (Int × β)
  | [] => []
  | (k2, w) :: rest =>
      if k2 = k then (k2, f w) :: rest else (k2, w) :: updAssoc k f rest

/-- Required payload fields for a staff profile, in the order checked. -/
def staffRequiredFields : List String :=
  ["first_name", "last_name", "date_of_birth", "address", "position_id", "hire_date"]

/-- Required payload fields for a guest profile, in the order checked. -/
def guestRequiredFields : List String :=
  ["first_name", "last_name", "date_of_birth", "address"]

/-- `json.dumps` on the `Val` fragment (string escaping elided). -/
def json_dumps : Val → String
  | .s x => "\"" ++ x ++ "\""
  | .i n => toString n
  | .b true => "true"
  | .b false => "false"
  | .null => "null"

/-- Payload lookup with the guarantee (checked beforehand) that the field is
present. -/
def fieldOf (payload : List (String × Val)) (f : String) : Val :=
  (payload.lookup f).getD Val.null

/-- The staff_profiles row written by `complete_profile`. -/
def staffProfileRow (user_id : Int) (payload : List (String × Val)) : Row :=
  [("user_id", Val.i user_id),
   ("first_name", fieldOf payload "first_name"),
   ("last_name", fieldOf payload "last_name"),
   ("date_of_birth", fieldOf payload "date_of_birth"),
   ("address", fieldOf payload "address"),
   ("position_id", fieldOf payload "position_id"),
   ("hire_date", fieldOf payload "hire_date")]

/-- The guest_profiles row written by `complete_profile`; `preferences` is
`json.dumps(profile_data.get("preferences", \x7b\x7d))`. -/
def guestProfileRow (user_id : Int) (payload : List (String × Val)) : Row :=
  [("user_id", Val.i user_id),
   ("first_name", fieldOf payload "first_name"),
   ("last_name", fieldOf payload "last_name"),
   ("date_of_birth", fieldOf payload "date_of_birth"),
   ("address", fieldOf payload "address"),
   ("preferences",
     Val.s (match payload.lookup "preferences" with
            | Option.some v => json_dumps v
            | Option.none => "\x7b\x7d"))]

/-- Store-failure injection for one `complete_profile` call: whether the
connection is obtained, whether the profile upsert statement fails, whether
the users UPDATE statement fails, and the message of the injected failure. -/
structure ProfileFaults where
  connOk : Bool
  upsertFails : Bool
  updateFails : Bool
  faultMsg : String
deriving DecidableEq, Repr

/-- Embedding of `complete_profile(user_id, profile_data)`.  All statements
run in one transaction committed only at the end, so every caught exception
(user not found, missing field, invalid role, failed statement) rolls the
transaction back and leaves the state unchanged; on success the role-matching
profile table is upserted at `user_id` and the users row at `user_id` gets
`profile_completed = TRUE`. -/
def complete_profile (db : DbState) (flt : ProfileFaults) (user_id : Int)
    (profile_data : List (String × Val)) : Except PyErr (Row × DbState) :=
  if !flt.connOk then .error (.connErr "could not connect to server")
  else .ok <|
    match db.users.lookup user_id with
    | Option.none => (svcErr "User not found", db)
    | Option.some (user_role, _) =>
      if user_role = "staff" then
        match staffRequiredFields.find? (fun f => (profile_data.lookup f).isNone) with
        | Option.some f => (svcErr ("Missing required field for staff: " ++ f), db)
        | Option.none =>
            if flt.upsertFails then (svcErr flt.faultMsg, db)
            else if flt.updateFails then (svcErr flt.faultMsg, db)
            else
              ([("status", Val.s "success"),
                ("message", Val.s (user_role ++ " profile completed successfully"))],
               ⟨updAssoc user_id (fun rc => (rc.1, true)) db.users,
                db.guest_profiles,
                upsertAssoc user_id (staffProfileRow user_id profile_data) db.staff_profiles⟩)
      else if user_role = "guest" then
        match guestRequiredFields.find? (fun f => (profile_data.lookup f).isNone) with
        | Option.some f => (svcErr ("Missing required field for guest: " ++ f), db)
        | Option.none =>
            if flt.upsertFails then (svcErr flt.faultMsg, db)
            else if flt.updateFails then (svcErr flt.faultMsg, db)
            else
              ([("status", Val.s "success"),
                ("message", Val.s (user_role ++ " profile completed successfully"))],
               ⟨updAssoc user_id (fun rc => (rc.1, true)) db.users,
                upsertAssoc user_id (guestProfileRow user_id profile_data) db.guest_profiles,
                db.staff_profiles⟩)
      else (svcErr "Invalid user role", db)

/-- A profile row may exist only for a user whose role matches the table. -/
def rolesMatch (db : DbState) : Prop :=
  (∀ e ∈ db.guest_profiles, (db.users.lookup e.1).map Prod.fst = Option.some "guest") ∧
  (∀ e ∈ db.staff_profiles, (db.users.lookup e.1).map Prod.fst = Option.some "staff")

/-- A user marked profile_completed has a row in the table matching its
role. -/
def completedHasProfile (db : DbState) : Prop :=
  ∀ e ∈ db.users, e.2.2 = true →
    (e.2.1 = "guest" ∧ (db.guest_profiles.lookup e.1).isSome = true) ∨
    (e.2.1 = "staff" ∧ (db.staff_profiles.lookup e.1).isSome = true)

/-- The data-model invariant of §3 relating users and profile tables. -/
def ProfileInv (db : DbState) : Prop :=
  rolesMatch db ∧ completedHasProfile db

instance (db : DbState) : Decidable (rolesMatch db) := by
  unfold rolesMatch; infer_instance

instance (db : DbState) : Decidable (completedHasProfile db) := by
  unfold completedHasProfile; infer_instance

instance (db : DbState) : Decidable (ProfileInv db) := by
  unfold ProfileInv; infer_instance

/- Concrete fixtures used to instantiate the theorems. -/

/-- A healthy store whose single fetched row is id = 1. -/
def demoStore : Store := ⟨true, true, "", [[("id", Val.i 1)]], 1⟩

/-- A store whose statement execution fails with a constraint violation. -/
def failStore : Store := ⟨true, false, "duplicate key value violates unique constraint", [], 0⟩

/-- A registration store: connection fine, no duplicate user, new id 7. -/
def demoRegStore : RegStore := ⟨true, false, 7⟩

/-- A registration payload without the user_role field. -/
def demoRegData : RegisterData := ⟨"alice", "a@x.com", "pw", Option.none⟩

/-- A database with one guest user (id 1) with an incomplete profile. -/
def demoDb : DbState := ⟨[(1, "guest", false)], [], []⟩

/-- Fault-free profile-completion run. -/
def demoFaults : ProfileFaults := ⟨true, false, false, "boom"⟩

/-- A complete guest profile payload. -/
def demoGuestPayload : List (String × Val) :=
  [("first_name", Val.s "A"), ("last_name", Val.s "B"),
   ("date_of_birth", Val.s "1990-01-01"), ("address", Val.s "X")]

/-- The state `demoDb` reaches after the guest profile is completed. -/
def demoDbAfter : DbState :=
  ⟨[(1, "guest", true)], [(1, guestProfileRow 1 demoGuestPayload)], []⟩

/-- The success response of `complete_profile` for a guest. -/
def guestSuccessRow : Row :=
  [("status", Val.s "success"), ("message", Val.s "guest profile completed successfully")]

/- Association-list lemmas shared by the invariant proofs. -/

theorem lookup_cons_self {β : Type} (k : Int) (w : β) (tl : List (Int × β)) :
    List.lookup k ((k, w) :: tl) = Option.some w := by
  simp [List.lookup]

theorem lookup_cons_ne {β : Type} {k k2 : Int} (w : β) (tl : List (Int × β)) (h : k ≠ k2) :
    List.lookup k ((k2, w) :: tl) = List.lookup k tl := by
  have hb : (k == k2) = false := beq_eq_false_iff_ne.mpr h
  simp [List.lookup, hb]

theorem updAssoc_cons_self {β : Type} (k : Int) (f : β → β) (w : β) (tl : List (Int × β)) :
    updAssoc k f ((k, w) :: tl) = (k, f w) :: tl := by
  simp [updAssoc]

theorem updAssoc_cons_ne {β : Type} {k k2 : Int} (f : β → β) (w : β) (tl : List (Int × β))
    (h : k2 ≠ k) : updAssoc k f ((k2, w) :: tl) = (k2, w) :: updAssoc k f tl := by
  simp [updAssoc, h]

theorem upsertAssoc_cons_self {β : Type} (k : Int) (v w : β) (tl : List (Int × β)) :
    upsertAssoc k v ((k, w) :: tl) = (k, v) :: tl := by
  simp [upsertAssoc]

theorem upsertAssoc_cons_ne {β : Type} {k k2 : Int} (v w : β) (tl : List (Int × β))
    (h : k2 ≠ k) : upsertAssoc k v ((k2, w) :: tl) = (k2, w) :: upsertAssoc k v tl := by
  simp [upsertAssoc, h]

theorem lookup_updAssoc {β : Type} (k : Int) (f : β → β) (l : List (Int × β)) :
    (updAssoc k f l).lookup k = (l.lookup k).map f := by
  induction l with
  | nil => simp [updAssoc, List.lookup]
  | cons hd tl ih =>
    obtain ⟨k2, w⟩ := hd
    by_cases h : k2 = k
    · subst h
      rw [updAssoc_cons_self, lookup_cons_self, lookup_cons_self]
      rfl
    · rw [updAssoc_cons_ne _ _ _ h, lookup_cons_ne _ _ (Ne.symm h),
        lookup_cons_ne _ _ (Ne.symm h), ih]

theorem lookup_updAssoc_ne {β : Type} {k k2 : Int} (f : β → β) (l : List (Int × β))
    (h : k2 ≠ k) : (updAssoc k f l).lookup k2 = l.lookup k2 := by
  induction l with
  | nil => simp [updAssoc]
  | cons hd tl ih =>
    obtain ⟨k3, w⟩ := hd
    by_cases h3 : k3 = k
    · subst h3
      rw [updAssoc_cons_self, lookup_cons_ne _ _ h, lookup_cons_ne _ _ h]
    · rw [updAssoc_cons_ne _ _ _ h3]
      by_cases h2 : k2 = k3
      · subst h2
        rw [lookup_cons_self, lookup_cons_self]
      · rw [lookup_cons_ne _ _ h2, lookup_cons_ne _ _ h2, ih]

theorem lookup_upsertAssoc_self {β : Type} (k : Int) (v : β) (l : List (Int × β)) :
    (upsertAssoc k v l).lookup k = Option.some v := by
  induction l with
  | nil => simp [upsertAssoc, lookup_cons_self]
  | cons hd tl ih =>
    obtain ⟨k2, w⟩ := hd
    by_cases h : k2 = k
    · subst h
      rw [upsertAssoc_cons_self, lookup_cons_self]
    · rw [upsertAssoc_cons_ne _ _ _ h, lookup_cons_ne _ _ (Ne.symm h), ih]

theorem lookup_upsertAssoc_ne {β : Type} {k k2 : Int} (v : β) (l : List (Int × β))
    (h : k2 ≠ k) : (upsertAssoc k v l).lookup k2 = l.lookup k2 := by
  induction l with
  | nil =>
    show List.lookup k2 [(k, v)] = List.lookup k2 []
    rw [lookup_cons_ne _ _ h]
  | cons hd tl ih =>
    obtain ⟨k3, w⟩ := hd
    by_cases h3 : k3 = k
    · subst h3
      rw [upsertAssoc_cons_self, lookup_cons_ne _ _ h, lookup_cons_ne _ _ h]
    · rw [upsertAssoc_cons_ne _ _ _ h3]
      by_cases h2 : k2 = k3
      · subst h2
        rw [lookup_cons_self, lookup_cons_self]
      · rw [lookup_cons_ne _ _ h2, lookup_cons_ne _ _ h2, ih]

theorem mem_upsertAssoc {β : Type} {k : Int} {v : β} {l : List (Int × β)}
    {e : Int × β} (he : e ∈ upsertAssoc k v l) : e = (k, v) ∨ e ∈ l := by
  induction l with
  | nil =>
    simp only [upsertAssoc] at he
    rcases List.mem_cons.mp he with he2 | he2
    · left; exact he2
    · simp at he2
  | cons hd tl ih =>
    obtain ⟨k2, w⟩ := hd
    by_cases h : k2 = k
    · subst h
      rw [upsertAssoc_cons_self] at he
      rcases List.mem_cons.mp he with he2 | he2
      · left; exact he2
      · right; exact List.mem_cons_of_mem _ he2
    · rw [upsertAssoc_cons_ne _ _ _ h] at he
      rcases List.mem_cons.mp he with he2 | he2
      · subst he2; right; exact List.mem_cons_self _ _
      · rcases ih he2 with h2 | h2
        · left; exact h2
        · right; exact List.mem_cons_of_mem _ h2

theorem mem_updAssoc {β : Type} {k : Int} {f : β → β} {l : List (Int × β)}
    {e : Int × β} (he : e ∈ updAssoc k f l) :
    (∃ w, (k, w) ∈ l ∧ e = (k, f w)) ∨ e ∈ l := by
  induction l with
  | nil => simp [updAssoc] at he
  | cons hd tl ih =>
    obtain ⟨k2, w⟩ := hd
    by_cases h : k2 = k
    · subst h
      rw [updAssoc_cons_self] at he
      rcases List.mem_cons.mp he with he2 | he2
      · left; exact ⟨w, List.mem_cons_self _ _, he2⟩
      · right; exact List.mem_cons_of_mem _ he2
    · rw [updAssoc_cons_ne _ _ _ h] at he
      rcases List.mem_cons.mp he with he2 | he2
      · subst he2; right; exact List.mem_cons_self _ _
      · rcases ih he2 with ⟨w2, hw2, hew⟩ | h2
        · left; exact ⟨w2, List.mem_cons_of_mem _ hw2, hew⟩
        · right; exact List.mem_cons_of_mem _ h2

theorem lookup_of_mem_nodup {β : Type} {l : List (Int × β)} {k : Int} {w : β}
    (hN : (l.map Prod.fst).Nodup) (hm : (k, w) ∈ l) : l.lookup k = Option.some w := by
  induction l with
  | nil => simp at hm
  | cons hd tl ih =>
    obtain ⟨k2, w2⟩ := hd
    simp only [List.map_cons, List.nodup_cons, List.mem_map] at hN
    rcases List.mem_cons.mp hm with he | hm2
    · injection he with h1 h2
      subst h1; subst h2
      exact lookup_cons_self ..
    · by_cases h : k2 = k
      · subst h
        exact absurd hN.1 (by push_neg; exact ⟨(k2, w), hm2, rfl⟩)
      · rw [lookup_cons_ne _ _ (Ne.symm h)]
        exact ih hN.2 hm2

/-- Invariant preservation for one success path of `complete_profile`,
stated for the guest role: upserting a guest profile at `uid` and flipping
`profile_completed` preserves the data-model invariant when `uid` is a
guest. -/
theorem profileInv_guest_step (db : DbState) (uid : Int) (row : Row) (c : Bool)
    (hN : (db.users.map Prod.fst).Nodup)
    (hInv : ProfileInv db)
    (hu : db.users.lookup uid = Option.some ("guest", c)) :
    ProfileInv ⟨updAssoc uid (fun rc => (rc.1, true)) db.users,
                upsertAssoc uid row db.guest_profiles,
                db.staff_profiles⟩ := by
  obtain ⟨⟨h1, h2⟩, h3⟩ := hInv
  refine ⟨⟨?_, ?_⟩, ?_⟩
  · intro e he
    obtain ⟨e1, e2⟩ := e
    rcases mem_upsertAssoc he with he2 | he2
    · injection he2 with hk _
      subst hk
      show ((updAssoc e1 _ db.users).lookup e1).map Prod.fst = Option.some "guest"
      rw [lookup_updAssoc, hu]
      rfl
    · have hold := h1 _ he2
      by_cases hk : e1 = uid
      · subst hk
        show ((updAssoc e1 _ db.users).lookup e1).map Prod.fst = Option.some "guest"
        rw [lookup_updAssoc, hu]
        rfl
      · show ((updAssoc uid _ db.users).lookup e1).map Prod.fst = Option.some "guest"
        rw [lookup_updAssoc_ne _ _ hk]
        exact hold
  · intro e he
    obtain ⟨e1, e2⟩ := e
    have hold := h2 _ he
    by_cases hk : e1 = uid
    · subst hk
      rw [hu] at hold
      simp at hold
    · show ((updAssoc uid _ db.users).lookup e1).map Prod.fst = Option.some "staff"
      rw [lookup_updAssoc_ne _ _ hk]
      exact hold
  · intro e he htrue
    obtain ⟨e1, e2⟩ := e
    rcases mem_updAssoc he with ⟨w, hw, hew⟩ | he2
    · have hlk : db.users.lookup uid = Option.some w := lookup_of_mem_nodup hN hw
      rw [hu] at hlk
      have hww := Option.some.inj hlk
      injection hew with hk he2w
      subst hk
      left
      constructor
      · show e2.1 = "guest"
        rw [he2w, ← hww]
      · show ((upsertAssoc e1 row db.guest_profiles).lookup e1).isSome = true
        rw [lookup_upsertAssoc_self]
        rfl
    · have hold := h3 _ he2 htrue
      by_cases hk : e1 = uid
      · subst hk
        have hlk : db.users.lookup e1 = Option.some e2 := lookup_of_mem_nodup hN he2
        rw [hu] at hlk
        have he2eq := Option.some.inj hlk
        left
        constructor
        · show e2.1 = "guest"
          rw [← he2eq]
        · show ((upsertAssoc e1 row db.guest_profiles).lookup e1).isSome = true
          rw [lookup_upsertAssoc_self]
          rfl
      · rcases hold with ⟨hrole, hsome⟩ | ⟨hrole, hsome⟩
        · left
          refine ⟨hrole, ?_⟩
          show ((upsertAssoc uid row db.guest_profiles).lookup e1).isSome = true
          rw [lookup_upsertAssoc_ne _ _ hk]
          exact hsome
        · right
          exact ⟨hrole, hsome⟩

/-- Invariant preservation for the staff success path of `complete_profile`,
mirror image of `profileInv_guest_step`. -/
theorem profileInv_staff_step (db : DbState) (uid : Int) (row : Row) (c : Bool)
    (hN : (db.users.map Prod.fst).Nodup)
    (hInv : ProfileInv db)
    (hu : db.users.lookup uid = Option.some ("staff", c)) :
    ProfileInv ⟨updAssoc uid (fun rc => (rc.1, true)) db.users,
                db.guest_profiles,
                upsertAssoc uid row db.staff_profiles⟩ := by
  obtain ⟨⟨h1, h2⟩, h3⟩ := hInv
  refine ⟨⟨?_, ?_⟩, ?_⟩
  · intro e he
    obtain ⟨e1, e2⟩ := e
    have hold := h1 _ he
    by_cases hk : e1 = uid
    · subst hk
      rw [hu] at hold
      simp at hold
    · show ((updAssoc uid _ db.users).lookup e1).map Prod.fst = Option.some "guest"
      rw [lookup_updAssoc_ne _ _ hk]
      exact hold
  · intro e he
    obtain ⟨e1, e2⟩ := e
    rcases mem_upsertAssoc he with he2 | he2
    · injection he2 with hk _
      subst hk
      show ((updAssoc e1 _ db.users).lookup e1).map Prod.fst = Option.some "staff"
      rw [lookup_updAssoc, hu]
      rfl
    · have hold := h2 _ he2
      by_cases hk : e1 = uid
      · subst hk
        show ((updAssoc e1 _ db.users).lookup e1).map Prod.fst = Option.some "staff"
        rw [lookup_updAssoc, hu]
        rfl
      · show ((updAssoc uid _ db.users).lookup e1).map Prod.fst = Option.some "staff"
        rw [lookup_updAssoc_ne _ _ hk]
        exact hold
  · intro e he htrue
    obtain ⟨e1, e2⟩ := e
    rcases mem_updAssoc he with ⟨w, hw, hew⟩ | he2
    · have hlk : db.users.lookup uid = Option.some w := lookup_of_mem_nodup hN hw
      rw [hu] at hlk
      have hww := Option.some.inj hlk
      injection hew with hk he2w
      subst hk
      right
      constructor
      · show e2.1 = "staff"
        rw [he2w, ← hww]
      · show ((upsertAssoc e1 row db.staff_profiles).lookup e1).isSome = true
        rw [lookup_upsertAssoc_self]
        rfl
    · have hold := h3 _ he2 htrue
      by_cases hk : e1 = uid
      · subst hk
        have hlk : db.users.lookup e1 = Option.some e2 := lookup_of_mem_nodup hN he2
        rw [hu] at hlk
        have he2eq := Option.some.inj hlk
        right
        constructor
        · show e2.1 = "staff"
          rw [← he2eq]
        · show ((upsertAssoc e1 row db.staff_profiles).lookup e1).isSome = true
          rw [lookup_upsertAssoc_self]
          rfl
      · rcases hold with ⟨hrole, hsome⟩ | ⟨hrole, hsome⟩
        · left
          exact ⟨hrole, hsome⟩
        · right
          refine ⟨hrole, ?_⟩
          show ((upsertAssoc uid row db.staff_profiles).lookup e1).isSome = true
          rw [lookup_upsertAssoc_ne _ _ hk]
          exact hsome

/-- Error-response branches of `complete_profile`: the state is unchanged and
the success-only conclusions hold vacuously. -/
theorem errResponseCase (db : DbState) (uid : Int) (m : String) (hInv : ProfileInv db) :
    ProfileInv db ∧
    ((svcErr m).lookup "status" = Option.some (Val.s "error") → db = db) ∧
    ((svcErr m).lookup "status" = Option.some (Val.s "success") →
      (db.users.lookup uid).map Prod.snd = Option.some true ∧
      ((db.users.lookup uid).map Prod.fst = Option.some "guest" →
        (db.guest_profiles.lookup uid).isSome = true) ∧
      ((db.users.lookup uid).map Prod.fst = Option.some "staff" →
        (db.staff_profiles.lookup uid).isSome = true)) := by
  refine ⟨hInv, fun _ => rfl, fun habs => ?_⟩
  exfalso
  simp [svcErr, List.lookup] at habs

/-- C1 counterexample: `get_all` accepts a filter key that fails the
safe-identifier pattern, interpolates it into the SQL text and issues the
query (the call returns the store's rows instead of a validation error);
`upsert_row` likewise accepts a conflict column, update columns and a
returning list that all fail the pattern, interpolating them into the SQL
text. -/
theorem c1_unvalidated_identifiers_reach_sql :
    pyIdentMatch "a b; DROP TABLE users; --" = false ∧
    get_all demoStore "users" [("a b; DROP TABLE users; --", Val.i 1)]
      Option.none Option.none Option.none = .ok [[("id", Val.i 1)]] ∧
    get_all_query "users" [("a b; DROP TABLE users; --", Val.i 1)]
      Option.none Option.none Option.none =
      "SELECT * FROM users WHERE a b; DROP TABLE users; -- = %s" ∧
    pyIdentMatch "evil; --" = false ∧
    upsert_row demoStore "users" [("x", Val.i 1)] "evil; --" ["evil; --"]
      (Option.some "id; --") = .ok Option.none ∧
    upsert_row_query "users" [("x", Val.i 1)] "evil; --" ["evil; --"]
      (Option.some "id; --") =
      "INSERT INTO users (x) VALUES (%s) ON CONFLICT (evil; --) DO UPDATE SET evil; -- = EXCLUDED.evil; --  RETURNING id; --" := by
  decide

/-- C1 amended: the identifiers the code does validate are rejected with a
ValueError before any SQL is issued (the result does not depend on the
store): the table name in all seven entry points, the column of
`get_by_column`, the order_by of `get_all`, the returning list of
`insert_row` and `update_by_id` (strict comma-separated pattern) and of
`delete_by_id` (looser pattern).  Filter keys of `get_all`, the data keys of
the write operations, and the conflict column, update columns and returning
list of `upsert_row` are interpolated into SQL without validation (see the
counterexample). -/
theorem c1_validated_identifiers_reject (t c ob r rl : String)
    (ht : pyIdentMatch t = false) (hc : pyIdentMatch c = false)
    (hob : pyIdentMatch ob = false) (hobne : ob ≠ "")
    (hr : validReturningList r = false) (hrne : r ≠ "")
    (hl : pyLooseMatch rl = false) (hlne : rl ≠ "") :
    (∀ st v, get_by_id st t v = .error (.valueErr (tableErrMsg t))) ∧
    (∀ st c2 v, get_by_column st t c2 v = .error (.valueErr (tableErrMsg t))) ∧
    (∀ st fl ob2 li off, get_all st t fl ob2 li off = .error (.valueErr (tableErrMsg t))) ∧
    (∀ st d ret, insert_row st t d ret = .error (.valueErr (tableErrMsg t))) ∧
    (∀ st d cc uc ret, upsert_row st t d cc uc ret = .error (.valueErr (tableErrMsg t))) ∧
    (∀ st v d ret, update_by_id st t v d ret = .error (.valueErr (tableErrMsg t))) ∧
    (∀ st v ret, delete_by_id st t v ret = .error (.valueErr (tableErrMsg t))) ∧
    (∀ st v, get_by_column st "users" c v = .error (.valueErr "Invalid column name")) ∧
    (∀ st fl li off, get_all st "users" fl (Option.some ob) li off =
      .error (.valueErr "Invalid order_by column")) ∧
    (∀ st, insert_row st "users" [("a", Val.i 0)] (Option.some r) =
      .error (.valueErr "Invalid returning column specification")) ∧
    (∀ st v, update_by_id st "users" v [("a", Val.i 0)] (Option.some r) =
      .error (.valueErr "Invalid returning column specification")) ∧
    (∀ st v, delete_by_id st "users" v (Option.some rl) =
      .error (.valueErr "Invalid returning columns specification")) := by
  have husers : pyIdentMatch "users" = true := by decide
  refine ⟨?_, ?_, ?_, ?_, ?_, ?_, ?_, ?_, ?_, ?_, ?_, ?_⟩
  · intro st v; simp [get_by_id, ht]
  · intro st c2 v; simp [get_by_column, ht]
  · intro st fl ob2 li off; simp [get_all, ht]
  · intro st d ret; simp [insert_row, ht]
  · intro st d cc uc ret; simp [upsert_row, ht]
  · intro st v d ret; simp [update_by_id, ht]
  · intro st v ret; simp [delete_by_id, ht]
  · intro st v; simp [get_by_column, husers, hc]
  · intro st fl li off; simp [get_all, husers, optTruthy, hobne, hob]
  · intro st; simp [insert_row, husers, optTruthy, hrne, hr]
  · intro st v; simp [update_by_id, husers, optTruthy, hrne, hr]
  · intro st v; simp [delete_by_id, husers, optTruthy, hlne, hl]

/-- C1 witness of the amended statement at concrete invalid identifiers. -/
theorem c1_validated_identifiers_reject_witness :
    get_by_id demoStore "users; --" (Val.i 1) =
      .error (.valueErr (tableErrMsg "users; --")) ∧
    get_by_column demoStore "users; --" "id" (Val.i 1) =
      .error (.valueErr (tableErrMsg "users; --")) ∧
    get_all demoStore "users; --" [] Option.none Option.none Option.none =
      .error (.valueErr (tableErrMsg "users; --")) ∧
    insert_row demoStore "users; --" [("a", Val.i 0)] Option.none =
      .error (.valueErr (tableErrMsg "users; --")) ∧
    upsert_row demoStore "users; --" [("a", Val.i 0)] "a" ["a"] Option.none =
      .error (.valueErr (tableErrMsg "users; --")) ∧
    update_by_id demoStore "users; --" (Val.i 1) [("a", Val.i 0)] Option.none =
      .error (.valueErr (tableErrMsg "users; --")) ∧
    delete_by_id demoStore "users; --" (Val.i 1) Option.none =
      .error (.valueErr (tableErrMsg "users; --")) ∧
    get_by_column demoStore "users" "1col" (Val.i 1) =
      .error (.valueErr "Invalid column name") ∧
    get_all demoStore "users" [] (Option.some "x-y") Option.none Option.none =
      .error (.valueErr "Invalid order_by column") ∧
    insert_row demoStore "users" [("a", Val.i 0)] (Option.some "*") =
      .error (.valueErr "Invalid returning column specification") ∧
    update_by_id demoStore "users" (Val.i 1) [("a", Val.i 0)] (Option.some "*") =
      .error (.valueErr "Invalid returning column specification") ∧
    delete_by_id demoStore "users" (Val.i 1) (Option.some "a;b") =
      .error (.valueErr "Invalid returning columns specification") := by
  have h := c1_validated_identifiers_reject "users; --" "1col" "x-y" "*" "a;b"
    (by decide) (by decide) (by decide) (by decide)
    (by decide) (by decide) (by decide) (by decide)
  exact ⟨h.1 demoStore (Val.i 1), h.2.1 demoStore "id" (Val.i 1),
    h.2.2.1 demoStore [] Option.none Option.none Option.none,
    h.2.2.2.1 demoStore [("a", Val.i 0)] Option.none,
    h.2.2.2.2.1 demoStore [("a", Val.i 0)] "a" ["a"] Option.none,
    h.2.2.2.2.2.1 demoStore (Val.i 1) [("a", Val.i 0)] Option.none,
    h.2.2.2.2.2.2.1 demoStore (Val.i 1) Option.none,
    h.2.2.2.2.2.2.2.1 demoStore (Val.i 1),
    h.2.2.2.2.2.2.2.2.1 demoStore [] Option.none Option.none,
    h.2.2.2.2.2.2.2.2.2.1 demoStore,
    h.2.2.2.2.2.2.2.2.2.2.1 demoStore (Val.i 1),
    h.2.2.2.2.2.2.2.2.2.2.2 demoStore (Val.i 1)⟩

/-- C2: on a store where the INSERT executes fine, `insert_row` with a valid
returning list yields `None` rather than the returned row (because
`execute_query` fetches rows only for SQL starting with "select"), and
`insert_row` with `returning=None` raises `DatabaseError` (because the
integer row count comes back and `result[0]` raises TypeError) instead of
returning an absent result; `upsert_row` shows the same shape. -/
theorem c2_insert_row_result_shape :
    insert_row demoStore "users" [("username", Val.s "alice")] (Option.some "id") =
      .ok Option.none ∧
    insert_row demoStore "users" [("username", Val.s "alice")] Option.none =
      .error (.dbErr "Failed to insert into users: int object is not subscriptable") ∧
    upsert_row demoStore "users" [("username", Val.s "alice")] "username" ["username"]
      (Option.some "id") = .ok Option.none := by
  decide

/-- C3: with the default HS256 configuration, decoding a freshly issued token
returns its claims (the issued user id and role, along with the expiry);
decoding more than one hour after issuance fails with the expired-token
error; and decoding any token whose signature was not produced with the
configured key fails with the invalid-token error. -/
theorem c3_token_roundtrip (env : Env) (now now2 : Nat) (uid : Int) (role : String)
    (halg : ALGORITHM env = "HS256") :
    decode_jwt_token env now (create_jwt_token env now uid role) =
      .ok ⟨uid, role, now + 3600⟩ ∧
    (now + 3600 < now2 →
      decode_jwt_token env now2 (create_jwt_token env now uid role) = .error .expired) ∧
    (∀ t : Jwt, t.key ≠ SECRET_KEY env → decode_jwt_token env now t = .error .invalid) := by
  refine ⟨?_, ?_, ?_⟩
  · have h1 : ¬(now + 3600 < now) := by omega
    simp [decode_jwt_token, create_jwt_token, halg, h1]
  · intro h
    simp [decode_jwt_token, create_jwt_token, halg, h]
  · intro t ht
    simp [decode_jwt_token, ht]

/-- C3 witness at concrete inputs. -/
theorem c3_token_roundtrip_witness :
    decode_jwt_token [] 0 (create_jwt_token [] 0 1 "guest") = .ok ⟨1, "guest", 3600⟩ ∧
    decode_jwt_token [] 4000 (create_jwt_token [] 0 1 "guest") = .error .expired ∧
    decode_jwt_token [] 0 ⟨⟨1, "guest", 3600⟩, "wrongkey", "HS256"⟩ = .error .invalid := by
  have h := c3_token_roundtrip [] 0 4000 1 "guest" (by decide)
  exact ⟨h.1, h.2.1 (by decide), h.2.2 _ (by decide)⟩

/-- C4: on every path after a connection was acquired, `execute_query`
closes it; and whenever statement execution fails, the transaction is rolled
back and the failure surfaces as `DatabaseError` wrapping the cause. -/
theorem c4_execute_query_resource_contract (st : Store) (q : String)
    (params : List Val) (fetch commit : Bool) :
    ((execute_query st q params fetch commit).trace.acquired = true →
      (execute_query st q params fetch commit).trace.closed = true) ∧
    (q ≠ "" → st.connOk = true → st.execOk = false →
      (execute_query st q params fetch commit).result =
        .error (.dbErr ("Query execution failed: " ++ st.execErrMsg)) ∧
      (execute_query st q params fetch commit).trace.rolledBack = true ∧
      (execute_query st q params fetch commit).trace.closed = true) := by
  by_cases hq : q = ""
  · subst hq
    simp [execute_query, noTrace]
  · cases hconn : st.connOk with
    | false => simp [execute_query, hq, hconn, noTrace]
    | true =>
      cases hexec : st.execOk with
      | false => simp [execute_query, hq, hconn, hexec]
      | true => simp [execute_query, hq, hconn, hexec]

/-- C4 witness: a failing DELETE is rolled back, wrapped and the connection
closed. -/
theorem c4_execute_query_resource_contract_witness :
    (execute_query failStore "DELETE FROM users WHERE id = %s" [Val.i 1] false true).trace.closed
      = true ∧
    (execute_query failStore "DELETE FROM users WHERE id = %s" [Val.i 1] false true).result =
      .error (.dbErr "Query execution failed: duplicate key value violates unique constraint") ∧
    (execute_query failStore "DELETE FROM users WHERE id = %s" [Val.i 1] false true).trace.rolledBack
      = true := by
  have h := c4_execute_query_resource_contract failStore
    "DELETE FROM users WHERE id = %s" [Val.i 1] false true
  have h2 := h.2 (by decide) (by decide) (by decide)
  exact ⟨h.1 (by decide), h2.1, h2.2.1⟩

/-- C5: on a fresh registration that should succeed, `register_user` does
hash the password, executes and commits the INSERT (with role guest), but
then building the success response subscripts the RealDictCursor row with
integer keys, so the KeyError is caught, a (post-commit) rollback is issued
and the caller receives a status error with message "0" instead of the
created identity. -/
theorem c5_register_returns_error_not_identity :
    register_user demoRegStore 0 demoRegData =
      .ok (svcErr "0", ⟨true, Option.some "guest", true, true, true⟩) := by
  decide

/-- C6 counterexample: in an environment where the SECRET_KEY variable is
absent, module import does not abort - the hardcoded default key is used and
loading succeeds. -/
theorem c6_absent_key_not_fatal :
    getenv [] "SECRET_KEY" = Option.none ∧
    load_secret_key [] = .ok SECRET_KEY_DEFAULT := by
  decide

/-- C6 amended: the signing key is read once at module import; when the
SECRET_KEY environment variable is absent the hardcoded default key is used
and startup proceeds; the fatal check fires only when the variable is
present but empty; a present non-empty value is used as-is. -/
theorem c6_secret_key_loading (env : Env) :
    (getenv env "SECRET_KEY" = Option.none →
      load_secret_key env = .ok SECRET_KEY_DEFAULT) ∧
    (getenv env "SECRET_KEY" = Option.some "" →
      load_secret_key env = .error (.valueErr "SECRET_KEY not found in the .env file")) ∧
    (∀ s, getenv env "SECRET_KEY" = Option.some s → s ≠ "" →
      load_secret_key env = .ok s) := by
  refine ⟨?_, ?_, ?_⟩
  · intro h
    simp [load_secret_key, SECRET_KEY, getenvD, h, SECRET_KEY_DEFAULT]
  · intro h
    simp [load_secret_key, SECRET_KEY, getenvD, h]
  · intro s h hs
    simp [load_secret_key, SECRET_KEY, getenvD, h, hs]

/-- C6 witness at the three concrete environments. -/
theorem c6_secret_key_loading_witness :
    load_secret_key [] = .ok SECRET_KEY_DEFAULT ∧
    load_secret_key [("SECRET_KEY", "")] =
      .error (.valueErr "SECRET_KEY not found in the .env file") ∧
    load_secret_key [("SECRET_KEY", "k")] = .ok "k" :=
  ⟨(c6_secret_key_loading []).1 (by decide),
   (c6_secret_key_loading [("SECRET_KEY", "")]).2.1 (by decide),
   (c6_secret_key_loading [("SECRET_KEY", "k")]).2.2 "k" (by decide) (by decide)⟩

/-- C8: under the idealized salted-hash model of bcrypt, verifying a
password against its own hash succeeds; verifying it against the hash of a
different password fails; and hashing the same password under two different
(fresh) salts produces different outputs. -/
theorem c8_password_hash_contract (p p2 : String) (s s2 : Nat) :
    verify_password p (hash_password p s) = true ∧
    (p ≠ p2 → verify_password p (hash_password p2 s2) = false) ∧
    (s ≠ s2 → hash_password p s ≠ hash_password p s2) := by
  refine ⟨?_, ?_, ?_⟩
  · simp [verify_password, hash_password, bcryptDigest]
  · intro h
    simp [verify_password, hash_password, bcryptDigest, h]
  · intro h hc
    have hs := congrArg BcryptHash.salt hc
    simp [hash_password] at hs
    exact h hs

/-- C8 witness at concrete passwords and salts. -/
theorem c8_password_hash_contract_witness :
    verify_password "pw" (hash_password "pw" 1) = true ∧
    verify_password "pw" (hash_password "pw2" 2) = false ∧
    hash_password "pw" 1 ≠ hash_password "pw" 2 := by
  have h := c8_password_hash_contract "pw" "pw2" 1 2
  exact ⟨h.1, h.2.1 (by decide), h.2.2 (by decide)⟩

/-- C9: a registration payload that omits user_role is inserted with role
"guest": the INSERT statement is executed and committed with
user_role = "guest" (the overall response is the error described at C5, but
the inserted row carries the defaulted role). -/
theorem c9_register_default_role_guest (st : RegStore) (salt : Nat) (data : RegisterData)
    (hrole : data.user_role = Option.none) (hu : data.username ≠ "")
    (he : data.email ≠ "") (hp : data.password ≠ "")
    (hconn : st.connOk = true) (hex : st.existingUser = false) :
    register_user st salt data =
      .ok (svcErr "0", ⟨true, Option.some "guest", true, true, true⟩) := by
  simp [register_user, hrole, hu, he, hp, hconn, hex, pyRowGet, svcErr, PyErr.pyStr]
  rfl

/-- C9 witness at a concrete payload without user_role. -/
theorem c9_register_default_role_guest_witness :
    register_user demoRegStore 0 demoRegData =
      .ok (svcErr "0", ⟨true, Option.some "guest", true, true, true⟩) :=
  c9_register_default_role_guest demoRegStore 0 demoRegData
    (by decide) (by decide) (by decide) (by decide) (by decide) (by decide)

/-- C10: decoding always restricts the accepted algorithms to HS256, while
issuance signs with the configured ALGORITHM; hence under any configuration
whose ALGORITHM is not HS256, every token issued by `create_jwt_token` is
rejected by `decode_jwt_token` as invalid. -/
theorem c10_algorithm_mismatch_rejected (env : Env) (now now2 : Nat) (uid : Int)
    (role : String) (halg : ALGORITHM env ≠ "HS256") :
    decode_jwt_token env now2 (create_jwt_token env now uid role) = .error .invalid := by
  simp [decode_jwt_token, create_jwt_token, halg]

/-- C10 witness with ALGORITHM configured to HS512. -/
theorem c10_algorithm_mismatch_rejected_witness :
    decode_jwt_token [("ALGORITHM", "HS512")] 0
      (create_jwt_token [("ALGORITHM", "HS512")] 0 1 "guest") = .error .invalid :=
  c10_algorithm_mismatch_rejected [("ALGORITHM", "HS512")] 0 0 1 "guest" (by decide)

/-- C7: assuming the users table is keyed by id and the data-model invariant
holds (profile rows only in the table matching the user's role, and a
completed user has a role-matching profile row), any run of
`complete_profile` preserves the invariant; every error response leaves the
database unchanged; and a success response means the user at `uid` now has
`profile_completed = true` and a profile row in the table matching its
role. -/
theorem c7_complete_profile_invariant (db : DbState) (flt : ProfileFaults) (uid : Int)
    (payload : List (String × Val)) (resp : Row) (db2 : DbState)
    (hN : (db.users.map Prod.fst).Nodup) (hInv : ProfileInv db)
    (heq : complete_profile db flt uid payload = .ok (resp, db2)) :
    ProfileInv db2 ∧
    (resp.lookup "status" = Option.some (Val.s "error") → db2 = db) ∧
    (resp.lookup "status" = Option.some (Val.s "success") →
      (db2.users.lookup uid).map Prod.snd = Option.some true ∧
      ((db2.users.lookup uid).map Prod.fst = Option.some "guest" →
        (db2.guest_profiles.lookup uid).isSome = true) ∧
      ((db2.users.lookup uid).map Prod.fst = Option.some "staff" →
        (db2.staff_profiles.lookup uid).isSome = true)) := by
  cases hconn : flt.connOk with
  | false =>
    rw [complete_profile, hconn] at heq
    simp at heq
  | true =>
    cases hu : db.users.lookup uid with
    | none =>
      rw [complete_profile, hconn, hu] at heq
      injection heq with h
      injection h with h1 h2
      subst h1; subst h2
      exact errResponseCase db uid "User not found" hInv
    | some rc =>
      obtain ⟨role, c⟩ := rc
      by_cases hstaff : role = "staff"
      · subst hstaff
        cases hf : staffRequiredFields.find? (fun f => (payload.lookup f).isNone) with
        | some f =>
          rw [complete_profile, hconn, hu] at heq
          rw [hf] at heq
          injection heq with h
          injection h with h1 h2
          subst h1; subst h2
          exact errResponseCase db uid _ hInv
        | none =>
          cases hup : flt.upsertFails with
          | true =>
            rw [complete_profile, hconn, hu] at heq
            rw [hf, hup] at heq
            injection heq with h
            injection h with h1 h2
            subst h1; subst h2
            exact errResponseCase db uid _ hInv
          | false =>
            cases hupd : flt.updateFails with
            | true =>
              rw [complete_profile, hconn, hu] at heq
              rw [hf, hup, hupd] at heq
              injection heq with h
              injection h with h1 h2
              subst h1; subst h2
              exact errResponseCase db uid _ hInv
            | false =>
              rw [complete_profile, hconn, hu] at heq
              rw [hf, hup, hupd] at heq
              injection heq with h
              injection h with h1 h2
              subst h1; subst h2
              refine ⟨profileInv_staff_step db uid (staffProfileRow uid payload) c hN hInv hu,
                ?_, ?_⟩
              · intro habs
                exact absurd habs (by decide)
              · intro _
                refine ⟨?_, ?_, ?_⟩
                · show ((updAssoc uid (fun rc => (rc.1, true)) db.users).lookup uid).map
                    Prod.snd = Option.some true
                  rw [lookup_updAssoc, hu]
                  rfl
                · intro hg
                  exfalso
                  have hg2 : ((updAssoc uid (fun rc => (rc.1, true)) db.users).lookup uid).map
                      Prod.fst = Option.some "guest" := hg
                  rw [lookup_updAssoc, hu] at hg2
                  simp at hg2
                · intro _
                  show ((upsertAssoc uid (staffProfileRow uid payload)
                    db.staff_profiles).lookup uid).isSome = true
                  rw [lookup_upsertAssoc_self]
                  rfl
      · by_cases hguest : role = "guest"
        · subst hguest
          cases hf : guestRequiredFields.find? (fun f => (payload.lookup f).isNone) with
          | some f =>
            rw [complete_profile, hconn, hu] at heq
            rw [hf] at heq
            injection heq with h
            injection h with h1 h2
            subst h1; subst h2
            exact errResponseCase db uid _ hInv
          | none =>
            cases hup : flt.upsertFails with
            | true =>
              rw [complete_profile, hconn, hu] at heq
              rw [hf, hup] at heq
              injection heq with h
              injection h with h1 h2
              subst h1; subst h2
              exact errResponseCase db uid _ hInv
            | false =>
              cases hupd : flt.updateFails with
              | true =>
                rw [complete_profile, hconn, hu] at heq
                rw [hf, hup, hupd] at heq
                injection heq with h
                injection h with h1 h2
                subst h1; subst h2
                exact errResponseCase db uid _ hInv
              | false =>
                rw [complete_profile, hconn, hu] at heq
                rw [hf, hup, hupd] at heq
                injection heq with h
                injection h with h1 h2
                subst h1; subst h2
                refine ⟨profileInv_guest_step db uid (guestProfileRow uid payload) c hN hInv hu,
                  ?_, ?_⟩
                · intro habs
                  exact absurd habs (by decide)
                · intro _
                  refine ⟨?_, ?_, ?_⟩
                  · show ((updAssoc uid (fun rc => (rc.1, true)) db.users).lookup uid).map
                      Prod.snd = Option.some true
                    rw [lookup_updAssoc, hu]
                    rfl
                  · intro _
                    show ((upsertAssoc uid (guestProfileRow uid payload)
                      db.guest_profiles).lookup uid).isSome = true
                    rw [lookup_upsertAssoc_self]
                    rfl
                  · intro hg
                    exfalso
                    have hg2 : ((updAssoc uid (fun rc => (rc.1, true)) db.users).lookup uid).map
                        Prod.fst = Option.some "staff" := hg
                    rw [lookup_updAssoc, hu] at hg2
                    simp at hg2
        · rw [complete_profile, hconn, hu] at heq
          simp only [Bool.not_true, Bool.false_eq_true, if_false, Except.ok.injEq] at heq
          rw [if_neg hstaff, if_neg hguest] at heq
          injection heq with h1 h2
          subst h1; subst h2
          exact errResponseCase db uid _ hInv

/-- C7 witness: completing the profile of the concrete guest user. -/
theorem c7_complete_profile_invariant_witness :
    ProfileInv demoDbAfter ∧
    (guestSuccessRow.lookup "status" = Option.some (Val.s "error") → demoDbAfter = demoDb) ∧
    (guestSuccessRow.lookup "status" = Option.some (Val.s "success") →
      (demoDbAfter.users.lookup 1).map Prod.snd = Option.some true ∧
      ((demoDbAfter.users.lookup 1).map Prod.fst = Option.some "guest" →
        (demoDbAfter.guest_profiles.lookup 1).isSome = true) ∧
      ((demoDbAfter.users.lookup 1).map Prod.fst = Option.some "staff" →
        (demoDbAfter.staff_profiles.lookup 1).isSome = true)) :=
  c7_complete_profile_invariant demoDb demoFaults 1 demoGuestPayload
    guestSuccessRow demoDbAfter (by decide) (by decide) (by decide)

end Hotel
